import Mathlib

set_option maxHeartbeats 1000000

/-!
Shallow embedding of the OAI 5G UDM charmed operator
(`src/charm.py` and `lib/charms/oai_5g_udm/v0/oai_5g_udm.py`).

Relation databags are modelled as association lists (the remote, read-only
side) and as lookup functions (the local side this application writes).
The charm's event handlers become pure functions from an explicit
`CharmState` to a result record describing the status set, whether the
event was deferred, which files were pushed, which pebble layers were
added, which services were restarted, and the new local relation data.
-/

/-- A remote application databag: ordered key/value pairs as Juju exposes them. -/
abbrev Databag := List (String × String)

/-- The local (written) side of a relation databag, as a lookup function. -/
abbrev LocalBag := String → Option String

/-- Dictionary lookup `d.get(k, None)` on a databag. -/
def dbLookup (d : Databag) (k : String) : Option String :=
  (d.find? (fun p => p.1 == k)).map (fun p => p.2)

/-- Python truthiness of an optional string: `None` and the empty string are falsy. -/
def truthy : Option String → Bool
  | none => false
  | some s => !(s == "")

/-- One created relation instance: the remote application's identity, if any
unit of it has joined, and the remote application's databag. -/
structure RelationInfo where
  remoteApp : Option String
  remoteData : Databag

/-- Embeds the body of the requirer accessor properties
(`udm_ipv4_address`, `udm_fqdn`, `udm_port`, `udm_api_version` in
`lib/charms/oai_5g_udm/v0/oai_5g_udm.py`), parameterised by the key, for a
relation that exists: `relation.data.get(relation.app)` yields `None` when
`relation.app` is `None` and is falsy when the databag is empty; otherwise
the key is looked up with default `None`. -/
def requirer_lookup (r : RelationInfo) (key : String) : Option String :=
  match r.remoteApp with
  | none => none
  | some _ => if r.remoteData.isEmpty then none else dbLookup r.remoteData key

/-- Embeds the full requirer accessor property including its failure mode:
`self.model.get_relation(...)` returns `None` when the relation has not been
created, and the subsequent attribute access `relation.data` raises. -/
def requirer_value (rel : Option RelationInfo) (key : String) :
    Except String (Option String) :=
  match rel with
  | none => Except.error "AttributeError: NoneType object has no attribute data"
  | some r => Except.ok (requirer_lookup r key)

/-- Embeds the requirer availability properties
(`udm_ipv4_address_available` and friends): Python truthiness of the
corresponding accessor value. -/
def requirer_available (rel : Option RelationInfo) (key : String) :
    Except String Bool :=
  (requirer_value rel key).map truthy

/-- The availability predicate on a created relation (the branch of
`requirer_available` the reconciliation handler actually reaches, since the
handler checks relation existence first). -/
def ipv4_address_available (r : RelationInfo) (key : String) : Bool :=
  truthy (requirer_lookup r key)

/-- Explicit state of the charm: everything the handlers read. -/
structure CharmState where
  canConnect : Bool
  nrfRelation : Option RelationInfo
  udrRelation : Option RelationInfo
  isLeader : Bool
  udmRelations : List Nat
  udmData : Nat → LocalBag
  serviceFound : Option Bool
  appName : String
  modelName : String

/-- The FQDN the charm advertises:
`f"{self.model.app.name}.{self.model.name}.svc.cluster.local"`. -/
def udm_fqdn_value (s : CharmState) : String :=
  s.appName ++ "." ++ s.modelName ++ ".svc.cluster.local"

/-- Embeds `_udm_service_started`: `False` when the container is not
connectable; `get_service` raising `ModelError` (modelled as
`serviceFound = none`) is caught and yields `False`; otherwise the
service's running flag is returned. -/
def udm_service_started (s : CharmState) : Bool :=
  if s.canConnect = false then false
  else
    match s.serviceFound with
    | none => false
    | some running => running

/-- Writes the four `udm_*` keys into a local databag, leaving every other
key unchanged (the `dict.update` in `set_udm_information`). -/
def setUDMBag (udm_ipv4_address udm_fqdn udm_port udm_api_version : String)
    (d : LocalBag) : LocalBag :=
  fun k =>
    if k = "udm_ipv4_address" then some udm_ipv4_address
    else if k = "udm_fqdn" then some udm_fqdn
    else if k = "udm_port" then some udm_port
    else if k = "udm_api_version" then some udm_api_version
    else d k

/-- Embeds `FiveGUDMProvides.set_udm_information`: raises `RuntimeError`
when no `fiveg-udm` relation with the given id exists; otherwise updates
this application's own databag of that relation with the four keys. -/
def set_udm_information (udmRelations : List Nat) (data : Nat → LocalBag)
    (udm_ipv4_address udm_fqdn udm_port udm_api_version : String)
    (relation_id : Nat) : Except String (Nat → LocalBag) :=
  if relation_id ∈ udmRelations then
    Except.ok (fun i =>
      if i = relation_id then
        setUDMBag udm_ipv4_address udm_fqdn udm_port udm_api_version (data i)
      else data i)
  else
    Except.error "Relation fiveg-udm not created yet."

/-- Modelled from the spec: `FiveGUDMProvides.set_udm_information_for_all_relations`
is called by `charm.py` but its definition is not among the included
sources (only its caller is). Per the spec, `publish_all` iterates every
currently-joined relation instance of the UDM-provider kind and republishes
all four fields to this application's side of each. -/
def set_udm_information_for_all_relations (udmRelations : List Nat)
    (data : Nat → LocalBag)
    (udm_ipv4_address udm_fqdn udm_port udm_api_version : String) :
    Nat → LocalBag :=
  fun rid =>
    if rid ∈ udmRelations then
      setUDMBag udm_ipv4_address udm_fqdn udm_port udm_api_version (data rid)
    else data rid

/-- Embeds the charm method `_set_udm_information_for_all_relations`,
which supplies the fixed local endpoint values. -/
def setUdmInformationForAllRelations (s : CharmState) : Nat → LocalBag :=
  set_udm_information_for_all_relations s.udmRelations s.udmData
    "127.0.0.1" (udm_fqdn_value s) "80" "v1"

/-- Unit status values the handlers can set. -/
inductive Status where
  | active : Status
  | waiting (msg : String) : Status
  | blocked (msg : String) : Status
  deriving DecidableEq

/-- Whether a status is Blocked. -/
def Status.isBlocked : Status → Bool
  | .blocked _ => true
  | _ => false

/-- Whether a status is Waiting. -/
def Status.isWaiting : Status → Bool
  | .waiting _ => true
  | _ => false

/-- Observable outcome of one run of the reconciliation handler. -/
structure ConfigChangedResult where
  status : Status
  deferred : Bool
  pushed : List (String × String)
  layersAdded : List String
  restarted : List String
  udmData : Nat → LocalBag

def BASE_CONFIG_PATH : String := "/openair-udm/etc"

def CONFIG_FILE_NAME : String := "udm.conf"

def _config_instance : String := "0"

def _config_pid_directory : String := "/var/run"

def _config_udm_name : String := "OAI_UDM"

def _config_use_fqdn_dns : String := "yes"

def _config_sbi_interface_name : String := "eth0"

def _config_sbi_interface_port : String := "80"

def _config_sbi_interface_http2_port : String := "9090"

def _config_sbi_interface_api_version : String := "v1"

/-- Jinja2 renders a Python `None` value as the text `None`. -/
def jinjaStr : Option String → String
  | none => "None"
  | some s => s

/-- Modelled from the spec: the Jinja2 template `src/templates/udm.conf.j2`
is not among the included sources; the rendered text is reconstructed from
the byte-exact expected output asserted in `tests/unit/test_charm.py`, with
substitution slots for exactly the variables `_push_config` passes. -/
def renderConfig (instanceId pidDirectory udmName sbiInterfaceName
    sbiInterfacePort sbiInterfaceApiVersion sbiInterfaceHttp2Port
    useFqdnDns : String)
    (udrIpv4Address udrPort udrApiVersion udrFqdn
     nrfIpv4Address nrfPort nrfApiVersion nrfFqdn : Option String) : String :=
  "## UDM configuration file\n" ++
  "UDM =\n" ++
  "\x7b\n" ++
  "  INSTANCE_ID = " ++ instanceId ++ ";\n" ++
  "  PID_DIRECTORY = \"" ++ pidDirectory ++ "\";\n\n" ++
  "  UDM_NAME = \"" ++ udmName ++ "\";\n\n" ++
  "  INTERFACES:\x7b\n" ++
  "    # UDM binded interface for SBI interface (e.g., communication with UDR, AUSF)\n" ++
  "    SBI:\x7b\n" ++
  "        INTERFACE_NAME = \"" ++ sbiInterfaceName ++ "\";       # YOUR NETWORK CONFIG HERE\n" ++
  "        IPV4_ADDRESS   = \"read\";\n" ++
  "        PORT           = " ++ sbiInterfacePort ++ ";            # YOUR NETWORK CONFIG HERE (default: 80)\n" ++
  "        PPID           = 60;\n" ++
  "        API_VERSION    = \"" ++ sbiInterfaceApiVersion ++ "\";\n" ++
  "        HTTP2_PORT     = " ++ sbiInterfaceHttp2Port ++ ";     # YOUR NETWORK CONFIG HERE\n" ++
  "    \x7d;\n" ++
  "  \x7d;\n\n" ++
  "  # SUPPORT FEATURES\n" ++
  "  SUPPORT_FEATURES: \x7b\n" ++
  "    # STRING, \x7b\"yes\", \"no\"\x7d, \n" ++
  "    USE_FQDN_DNS = \"" ++ useFqdnDns ++ "\";    # Set to yes if UDM will relying on a DNS to resolve UDR\x27s FQDN\n" ++
  "    USE_HTTP2    = \"no\";       # Set to yes to enable HTTP2 for AUSF server\n" ++
  "    REGISTER_NRF = \"no\";    # Set to \x27yes\x27 if UDM resgisters to an NRF\n" ++
  "  \x7d  \n" ++
  "    \n" ++
  "  UDR:\x7b\n" ++
  "    IPV4_ADDRESS   = \"" ++ jinjaStr udrIpv4Address ++ "\";   # YOUR NETWORK CONFIG HERE\n" ++
  "    PORT           = " ++ jinjaStr udrPort ++ ";           # YOUR NETWORK CONFIG HERE (default: 80)\n" ++
  "    API_VERSION    = \"" ++ jinjaStr udrApiVersion ++ "\";   # YOUR API VERSION FOR UDR CONFIG HERE\n" ++
  "    FQDN           = \"" ++ jinjaStr udrFqdn ++ "\"          # YOUR UDR FQDN CONFIG HERE\n" ++
  "  \x7d;\n" ++
  "  \n" ++
  "  NRF :\n" ++
  "  \x7b\n" ++
  "    IPV4_ADDRESS = \"" ++ jinjaStr nrfIpv4Address ++ "\";  # YOUR NRF CONFIG HERE\n" ++
  "    PORT         = " ++ jinjaStr nrfPort ++ ";            # YOUR NRF CONFIG HERE (default: 80)\n" ++
  "    API_VERSION  = \"" ++ jinjaStr nrfApiVersion ++ "\";   # YOUR NRF API VERSION HERE\n" ++
  "    FQDN         = \"" ++ jinjaStr nrfFqdn ++ "\";          # YOUR NRF FQDN HERE\n" ++
  "  \x7d;\n" ++
  "\x7d;"

/-- Embeds `_push_config`: renders the template with the charm's constant
configuration values and the NRF/UDR requirer accessor values, and pushes
the result to `BASE_CONFIG_PATH/CONFIG_FILE_NAME`. Returns the (path,
content) pair that is pushed. -/
def pushConfigFile (rn ru : RelationInfo) : String × String :=
  (BASE_CONFIG_PATH ++ "/" ++ CONFIG_FILE_NAME,
   renderConfig _config_instance _config_pid_directory _config_udm_name
     _config_sbi_interface_name _config_sbi_interface_port
     _config_sbi_interface_api_version _config_sbi_interface_http2_port
     _config_use_fqdn_dns
     (requirer_lookup ru "udr_ipv4_address") (requirer_lookup ru "udr_port")
     (requirer_lookup ru "udr_api_version") (requirer_lookup ru "udr_fqdn")
     (requirer_lookup rn "nrf_ipv4_address") (requirer_lookup rn "nrf_port")
     (requirer_lookup rn "nrf_api_version") (requirer_lookup rn "nrf_fqdn"))

/-- Embeds `_on_config_changed`, the reconciliation handler.  The NRF and
UDR requirer libraries are not among the included sources; per the spec
they are data-exchange shims of the same shape as the included UDM
requirer, so their gating predicates `nrf_ipv4_address_available` and
`udr_ipv4_address_available` are the `ipv4_address_available` pattern
applied to the `nrf_*` and `udr_*` keys. -/
def on_config_changed (s : CharmState) : ConfigChangedResult :=
  if s.canConnect = false then
    { status := .waiting "Waiting for Pebble in workload container",
      deferred := true, pushed := [], layersAdded := [], restarted := [],
      udmData := s.udmData }
  else
    match s.nrfRelation with
    | none =>
        { status := .blocked "Waiting for relation to NRF to be created",
          deferred := false, pushed := [], layersAdded := [], restarted := [],
          udmData := s.udmData }
    | some rn =>
        match s.udrRelation with
        | none =>
            { status := .blocked "Waiting for relation to UDR to be created",
              deferred := false, pushed := [], layersAdded := [],
              restarted := [], udmData := s.udmData }
        | some ru =>
            if ipv4_address_available rn "nrf_ipv4_address" = false then
              { status := .waiting
                  "Waiting for NRF IPv4 address to be available in relation data",
                deferred := false, pushed := [], layersAdded := [],
                restarted := [], udmData := s.udmData }
            else if ipv4_address_available ru "udr_ipv4_address" = false then
              { status := .waiting "Waiting for UDR IPv4 address to be available",
                deferred := false, pushed := [], layersAdded := [],
                restarted := [], udmData := s.udmData }
            else
              { status := .active, deferred := false,
                pushed := [pushConfigFile rn ru],
                layersAdded := ["udm"], restarted := ["udm"],
                udmData :=
                  if s.isLeader then setUdmInformationForAllRelations s
                  else s.udmData }

/-- Observable outcome of one run of the relation-joined handler. -/
structure JoinedResult where
  deferred : Bool
  out : Except String (Nat → LocalBag)

/-- Embeds `_on_fiveg_udm_relation_joined`: a non-leader returns at once;
a leader whose service is not started defers; otherwise the endpoint is
published to the joining relation via `set_udm_information`. -/
def on_fiveg_udm_relation_joined (s : CharmState) (rid : Nat) : JoinedResult :=
  if s.isLeader = false then
    { deferred := false, out := Except.ok s.udmData }
  else if udm_service_started s = false then
    { deferred := true, out := Except.ok s.udmData }
  else
    { deferred := false,
      out := set_udm_information s.udmRelations s.udmData
        "127.0.0.1" (udm_fqdn_value s) "80" "v1" rid }

/-- The charm state after one run of the reconciliation handler: only the
local `fiveg-udm` relation data can change. -/
def reconcileState (s : CharmState) : CharmState :=
  { s with udmData := (on_config_changed s).udmData }

/-- A reconciliation run that stopped early: nothing pushed, no layer
added, nothing restarted, no relation data written, no deferral. -/
def no_side_effects (r : ConfigChangedResult) (s : CharmState) : Prop :=
  r.pushed = [] ∧ r.layersAdded = [] ∧ r.restarted = [] ∧
  r.udmData = s.udmData ∧ r.deferred = false

/-- NRF relation instance with all four keys published (the unit-test data). -/
def rnGood : RelationInfo :=
  { remoteApp := some "nrf",
    remoteData := [("nrf_ipv4_address", "1.2.3.4"), ("nrf_port", "81"),
                   ("nrf_fqdn", "nrf.example.com"), ("nrf_api_version", "v1")] }

/-- UDR relation instance with all four keys published (the unit-test data). -/
def ruGood : RelationInfo :=
  { remoteApp := some "udr",
    remoteData := [("udr_ipv4_address", "4.5.6.7"), ("udr_port", "82"),
                   ("udr_fqdn", "udr.example.com"), ("udr_api_version", "v1")] }

/-- A remote databag holding only 3 of the 4 keys: `udm_fqdn` is missing. -/
def udmBag3 : Databag :=
  [("udm_ipv4_address", "1.2.3.4"), ("udm_port", "80"),
   ("udm_api_version", "v1")]

/-- Local relation data where nothing has been published yet. -/
def emptyUdmData : Nat → LocalBag := fun _ _ => none

/-- A fully converged concrete state: leader, connectable container, both
relations created with complete peer data, service running. -/
def csConverged : CharmState :=
  { canConnect := true, nrfRelation := some rnGood, udrRelation := some ruGood,
    isLeader := true, udmRelations := [7], udmData := emptyUdmData,
    serviceFound := some true, appName := "oai-5g-udm", modelName := "whatever" }

/-- The converged state with an unreachable workload container. -/
def csUnreachable : CharmState := { csConverged with canConnect := false }

/-- The converged state with neither upstream relation created. -/
def csNoRelations : CharmState :=
  { csConverged with nrfRelation := none, udrRelation := none }

/-- A created relation whose remote peer has not joined or published. -/
def rnSilentPeer : RelationInfo := { remoteApp := none, remoteData := [] }

/-- The converged state but the NRF peer has published nothing yet. -/
def csPeerSilent : CharmState :=
  { csConverged with nrfRelation := some rnSilentPeer }

/-- The converged state on a non-leader unit. -/
def csNotLeader : CharmState := { csConverged with isLeader := false }

/-- The converged state where `get_service` raises ModelError. -/
def csServiceMissing : CharmState := { csConverged with serviceFound := none }

theorem on_config_changed_deferred (s : CharmState) :
    (on_config_changed s).deferred = !s.canConnect := by
  unfold on_config_changed
  cases hc : s.canConnect
  · simp
  · simp only [Bool.not_true]
    cases s.nrfRelation with
    | none => simp
    | some rn =>
      cases s.udrRelation with
      | none => simp
      | some ru =>
        by_cases h1 : ipv4_address_available rn "nrf_ipv4_address" = false <;>
          by_cases h2 : ipv4_address_available ru "udr_ipv4_address" = false <;>
            simp [h1, h2]

theorem setUDMBag_idem (a f p v : String) (d : LocalBag) :
    setUDMBag a f p v (setUDMBag a f p v d) = setUDMBag a f p v d := by
  funext k
  unfold setUDMBag
  by_cases h1 : k = "udm_ipv4_address" <;>
    by_cases h2 : k = "udm_fqdn" <;>
      by_cases h3 : k = "udm_port" <;>
        by_cases h4 : k = "udm_api_version" <;> simp [h1, h2, h3, h4]

theorem set_udm_information_for_all_relations_idem (rels : List Nat)
    (d : Nat → LocalBag) (a f p v : String) :
    set_udm_information_for_all_relations rels
      (set_udm_information_for_all_relations rels d a f p v) a f p v =
    set_udm_information_for_all_relations rels d a f p v := by
  funext rid
  unfold set_udm_information_for_all_relations
  by_cases h : rid ∈ rels <;> simp [h, setUDMBag_idem]

/-- C1 counterexample: with only 3 of the 4 `udm_*` keys present in the remote
databag — `udm_fqdn` is absent — the availability predicate is nevertheless
true, refuting the claim that it is true only when all four keys are present
and that any 3-of-4 state yields false. -/
theorem c1_counterexample :
    requirer_available
      (some { remoteApp := some "provider-app", remoteData := udmBag3 })
      "udm_ipv4_address" = Except.ok true ∧
    dbLookup udmBag3 "udm_fqdn" = none := by
  exact ⟨rfl, rfl⟩

/-- C1 (amended): the availability predicate used to gate reconciliation
depends only on the single `<role>_ipv4_address` key it names: on a created
relation it is true iff the relation has a remote application and that key is
present with a non-empty value, irrespective of the other three keys. -/
theorem c1_available_iff_single_key (r : RelationInfo) (key : String) :
    requirer_available (some r) key = Except.ok true ↔
      (∃ app, r.remoteApp = some app) ∧
      ∃ v, dbLookup r.remoteData key = some v ∧ v ≠ "" := by
  unfold requirer_available requirer_value requirer_lookup
  cases hApp : r.remoteApp with
  | none => simp [hApp, truthy, Except.map]
  | some app =>
    by_cases hE : r.remoteData.isEmpty
    · have h0 : r.remoteData = [] := List.isEmpty_iff.mp hE
      simp [hApp, hE, h0, truthy, dbLookup, Except.map]
    · cases hL : dbLookup r.remoteData key with
      | none => simp [hApp, hE, hL, truthy, Except.map]
      | some v => simp [hApp, hE, hL, truthy, Except.map]

/-- C1 witness: the amended characterisation applied to a concrete relation
with all keys present. -/
theorem c1_witness :
    requirer_available (some rnGood) "nrf_ipv4_address" = Except.ok true :=
  (c1_available_iff_single_key rnGood "nrf_ipv4_address").mpr
    ⟨⟨"nrf", rfl⟩, "1.2.3.4", by decide, by decide⟩

/-- C3: the reconciliation handler defers iff the workload container is not
connectable; in that case the status is Waiting and no config is pushed, no
layer applied, nothing restarted and no relation data written; every other
early exit terminates without deferring. -/
theorem c3_defer_iff_unreachable (s : CharmState) :
    ((on_config_changed s).deferred = true ↔ s.canConnect = false) ∧
    (s.canConnect = false →
      on_config_changed s =
        { status := .waiting "Waiting for Pebble in workload container",
          deferred := true, pushed := [], layersAdded := [], restarted := [],
          udmData := s.udmData }) := by
  constructor
  · rw [on_config_changed_deferred]
    cases s.canConnect <;> simp
  · intro h
    unfold on_config_changed
    simp [h]

/-- C3 witness: at a concrete unreachable state the handler defers with a
Waiting status and performs no side effects. -/
theorem c3_witness :
    on_config_changed csUnreachable =
      { status := .waiting "Waiting for Pebble in workload container",
        deferred := true, pushed := [], layersAdded := [], restarted := [],
        udmData := csUnreachable.udmData } :=
  (c3_defer_iff_unreachable csUnreachable).2 rfl

/-- C5: when the container is connectable and neither the NRF nor the UDR
relation exists, the handler reports the Blocked status naming NRF, never
UDR: the NRF check precedes the UDR check. -/
theorem c5_blocked_names_nrf (s : CharmState) (h1 : s.canConnect = true)
    (h2 : s.nrfRelation = none) (_h3 : s.udrRelation = none) :
    (on_config_changed s).status =
      .blocked "Waiting for relation to NRF to be created" := by
  unfold on_config_changed
  simp [h1, h2]

/-- C5 witness: the NRF-naming Blocked status at a concrete state with both
relations missing. -/
theorem c5_witness :
    (on_config_changed csNoRelations).status =
      .blocked "Waiting for relation to NRF to be created" :=
  c5_blocked_names_nrf csNoRelations rfl rfl rfl

/-- C2: with a connectable container, both upstream relations created and
both peer availability predicates true, reconciliation pushes the rendered
config to the workload filesystem, adds the pebble layer, restarts the udm
service, publishes the self endpoint to every joined UDM relation exactly
when the unit is leader, and ends with Active status. -/
theorem c2_reconcile_converged (s : CharmState) (rn ru : RelationInfo)
    (h1 : s.canConnect = true) (h2 : s.nrfRelation = some rn)
    (h3 : s.udrRelation = some ru)
    (h4 : ipv4_address_available rn "nrf_ipv4_address" = true)
    (h5 : ipv4_address_available ru "udr_ipv4_address" = true) :
    on_config_changed s =
      { status := .active, deferred := false,
        pushed := [pushConfigFile rn ru],
        layersAdded := ["udm"], restarted := ["udm"],
        udmData :=
          if s.isLeader then setUdmInformationForAllRelations s
          else s.udmData } := by
  unfold on_config_changed
  simp [h1, h2, h3, h4, h5]

/-- C2 witness: the converged concrete leader state ends Active, restarts
the service, and has published the self endpoint port to relation 7. -/
theorem c2_witness :
    (on_config_changed csConverged).status = .active ∧
    (on_config_changed csConverged).restarted = ["udm"] ∧
    (on_config_changed csConverged).udmData 7 "udm_port" = some "80" := by
  have h := c2_reconcile_converged csConverged rnGood ruGood rfl rfl rfl
    (by decide) (by decide)
  rw [h]
  exact ⟨rfl, rfl, by decide⟩

/-- C6: with a reachable workload, a required relation that was never
created yields a Blocked status, while relations that exist whose peer
endpoint is unavailable yield a Waiting status; in both cases the handler
stops: nothing pushed, no layer added, nothing restarted, no relation data
written, and no deferral. -/
theorem c6_blocked_vs_waiting (s : CharmState) (h : s.canConnect = true) :
    ((s.nrfRelation = none ∨ s.udrRelation = none) →
      (on_config_changed s).status.isBlocked = true ∧
      no_side_effects (on_config_changed s) s) ∧
    (∀ rn ru, s.nrfRelation = some rn → s.udrRelation = some ru →
      (ipv4_address_available rn "nrf_ipv4_address" = false ∨
       ipv4_address_available ru "udr_ipv4_address" = false) →
      (on_config_changed s).status.isWaiting = true ∧
      no_side_effects (on_config_changed s) s) := by
  constructor
  · intro hmiss
    rcases hmiss with hn | hu
    · unfold on_config_changed
      simp [h, hn, no_side_effects, Status.isBlocked]
    · cases hn : s.nrfRelation with
      | none =>
          unfold on_config_changed
          simp [h, hn, no_side_effects, Status.isBlocked]
      | some rn =>
          unfold on_config_changed
          simp [h, hn, hu, no_side_effects, Status.isBlocked]
  · intro rn ru hn hu hav
    rcases hav with h1 | h1
    · unfold on_config_changed
      simp [h, hn, hu, h1, no_side_effects, Status.isWaiting]
    · unfold on_config_changed
      by_cases h2 : ipv4_address_available rn "nrf_ipv4_address" = false
      · simp [h, hn, hu, h2, no_side_effects, Status.isWaiting]
      · simp [h, hn, hu, h1, h2, no_side_effects, Status.isWaiting]

/-- C6 witness: a created NRF relation whose peer has published nothing
yields a Waiting status at a concrete state. -/
theorem c6_witness :
    (on_config_changed csPeerSilent).status.isWaiting = true :=
  (((c6_blocked_vs_waiting csPeerSilent rfl).2 rnSilentPeer ruGood rfl rfl
    (Or.inl (by decide)))).1

/-- C7: running the reconciliation handler again on the state it produced
(all other inputs unchanged) pushes byte-identical rendered config text and
leaves the published self-endpoint relation data identical to the first
run: reconciliation does not drift. -/
theorem c7_reconcile_idempotent (s : CharmState) :
    (on_config_changed (reconcileState s)).pushed =
      (on_config_changed s).pushed ∧
    (on_config_changed (reconcileState s)).udmData =
      (on_config_changed s).udmData := by
  unfold reconcileState
  cases hc : s.canConnect with
  | false => simp [on_config_changed, hc]
  | true =>
    cases hn : s.nrfRelation with
    | none => simp [on_config_changed, hc, hn]
    | some rn =>
      cases hu : s.udrRelation with
      | none => simp [on_config_changed, hc, hn, hu]
      | some ru =>
        by_cases h1 : ipv4_address_available rn "nrf_ipv4_address" = false
        · simp [on_config_changed, hc, hn, hu, h1]
        · by_cases h2 : ipv4_address_available ru "udr_ipv4_address" = false
          · simp [on_config_changed, hc, hn, hu, h1, h2]
          · cases hl : s.isLeader with
            | false => simp [on_config_changed, hc, hn, hu, h1, h2, hl]
            | true =>
                simp [on_config_changed, hc, hn, hu, h1, h2, hl,
                  setUdmInformationForAllRelations, udm_fqdn_value,
                  set_udm_information_for_all_relations_idem]

/-- C8: `set_udm_information` errors — writing nothing — whenever no
`fiveg-udm` relation with the given id exists; when the relation exists it
writes all four `udm_*` keys to this application's own side of exactly that
relation, leaving other keys and other relations unchanged. -/
theorem c8_set_udm_information_spec (udmRelations : List Nat)
    (data : Nat → LocalBag) (a f p v : String) (rid : Nat) :
    (rid ∉ udmRelations →
      set_udm_information udmRelations data a f p v rid =
        Except.error "Relation fiveg-udm not created yet.") ∧
    (rid ∈ udmRelations →
      ∃ d, set_udm_information udmRelations data a f p v rid = Except.ok d ∧
        d rid "udm_ipv4_address" = some a ∧ d rid "udm_fqdn" = some f ∧
        d rid "udm_port" = some p ∧ d rid "udm_api_version" = some v ∧
        (∀ k, k ≠ "udm_ipv4_address" → k ≠ "udm_fqdn" → k ≠ "udm_port" →
          k ≠ "udm_api_version" → d rid k = data rid k) ∧
        (∀ j, j ≠ rid → d j = data j)) := by
  constructor
  · intro hmem
    unfold set_udm_information
    simp [hmem]
  · intro hmem
    unfold set_udm_information
    rw [if_pos hmem]
    refine ⟨_, rfl, ?_, ?_, ?_, ?_, ?_, ?_⟩
    · simp [setUDMBag]
    · simp [setUDMBag]
    · simp [setUDMBag]
    · simp [setUDMBag]
    · intro k h1 h2 h3 h4
      simp [setUDMBag, h1, h2, h3, h4]
    · intro j hj
      simp [hj]

/-- C8 witness: publishing to a relation id that does not exist errors. -/
theorem c8_witness :
    set_udm_information [7] emptyUdmData "127.0.0.1"
      "oai-5g-udm.whatever.svc.cluster.local" "80" "v1" 3 =
      Except.error "Relation fiveg-udm not created yet." :=
  (c8_set_udm_information_spec [7] emptyUdmData "127.0.0.1"
    "oai-5g-udm.whatever.svc.cluster.local" "80" "v1" 3).1 (by decide)

/-- C9: on a relation that has been created but where the remote peer has
not joined or has published nothing, every requirer endpoint accessor
returns None and the availability predicate returns false; neither raises
an error. -/
theorem c9_no_raise_created_silent (r : RelationInfo) (key : String)
    (h : r.remoteApp = none ∨ r.remoteData = []) :
    requirer_value (some r) key = Except.ok none ∧
    requirer_available (some r) key = Except.ok false := by
  rcases h with h | h
  · unfold requirer_available requirer_value requirer_lookup
    simp [h, truthy, Except.map]
  · unfold requirer_available requirer_value requirer_lookup
    cases hApp : r.remoteApp <;> simp [hApp, h, truthy, Except.map, dbLookup]

/-- C9 witness: the created-but-silent concrete relation returns None and
false. -/
theorem c9_witness :
    requirer_value (some rnSilentPeer) "nrf_ipv4_address" = Except.ok none ∧
    requirer_available (some rnSilentPeer) "nrf_ipv4_address" =
      Except.ok false :=
  c9_no_raise_created_silent rnSilentPeer "nrf_ipv4_address" (Or.inl rfl)

/-- C10: the service-started check is a total boolean function: false when
the container is not connectable, false when the service lookup raises
ModelError (the error is caught), and equal to the running flag otherwise;
whenever it is false, a leader's relation-joined handler defers and writes
no relation data instead of crashing. -/
theorem c10_service_started_total (s : CharmState) (rid : Nat) :
    (s.canConnect = false → udm_service_started s = false) ∧
    (s.serviceFound = none → udm_service_started s = false) ∧
    (∀ b, s.serviceFound = some b →
      udm_service_started s = (s.canConnect && b)) ∧
    (s.isLeader = true → udm_service_started s = false →
      on_fiveg_udm_relation_joined s rid =
        { deferred := true, out := Except.ok s.udmData }) := by
  refine ⟨?_, ?_, ?_, ?_⟩
  · intro h
    unfold udm_service_started
    simp [h]
  · intro h
    unfold udm_service_started
    cases hc : s.canConnect <;> simp [hc, h]
  · intro b h
    unfold udm_service_started
    cases hc : s.canConnect <;> simp [hc, h]
  · intro hl hs
    unfold on_fiveg_udm_relation_joined
    simp [hl, hs]

/-- C10 witness: a leader whose service lookup raises defers with no
write at a concrete state. -/
theorem c10_witness :
    on_fiveg_udm_relation_joined csServiceMissing 7 =
      { deferred := true, out := Except.ok csServiceMissing.udmData } :=
  (c10_service_started_total csServiceMissing 7).2.2.2 rfl (by decide)

/-- C4: on a UDM-relation-joined event a non-leader does nothing; a leader
whose workload service is not confirmed running defers and publishes
nothing; a leader whose service is running does not defer and writes
exactly udm_ipv4_address=127.0.0.1, udm_port=80, udm_api_version=v1 and
udm_fqdn=app.namespace.svc.cluster.local into that one relation's data. -/
theorem c4_relation_joined (s : CharmState) (rid : Nat) :
    (s.isLeader = false →
      on_fiveg_udm_relation_joined s rid =
        { deferred := false, out := Except.ok s.udmData }) ∧
    (s.isLeader = true → udm_service_started s = false →
      on_fiveg_udm_relation_joined s rid =
        { deferred := true, out := Except.ok s.udmData }) ∧
    (s.isLeader = true → udm_service_started s = true →
      rid ∈ s.udmRelations →
      (on_fiveg_udm_relation_joined s rid).deferred = false ∧
      ∃ d, (on_fiveg_udm_relation_joined s rid).out = Except.ok d ∧
        d rid "udm_ipv4_address" = some "127.0.0.1" ∧
        d rid "udm_port" = some "80" ∧
        d rid "udm_api_version" = some "v1" ∧
        d rid "udm_fqdn" =
          some (s.appName ++ "." ++ s.modelName ++ ".svc.cluster.local") ∧
        (∀ k, k ≠ "udm_ipv4_address" → k ≠ "udm_fqdn" → k ≠ "udm_port" →
          k ≠ "udm_api_version" → d rid k = s.udmData rid k) ∧
        (∀ j, j ≠ rid → d j = s.udmData j)) := by
  refine ⟨?_, ?_, ?_⟩
  · intro hl
    unfold on_fiveg_udm_relation_joined
    simp [hl]
  · intro hl hs
    unfold on_fiveg_udm_relation_joined
    simp [hl, hs]
  · intro hl hs hmem
    unfold on_fiveg_udm_relation_joined
    rw [if_neg (by simp [hl]), if_neg (by simp [hs])]
    refine ⟨rfl, ?_⟩
    unfold set_udm_information
    rw [if_pos hmem]
    refine ⟨_, rfl, ?_, ?_, ?_, ?_, ?_, ?_⟩
    · simp [setUDMBag]
    · simp [setUDMBag]
    · simp [setUDMBag]
    · simp [setUDMBag, udm_fqdn_value]
    · intro k h1 h2 h3 h4
      simp [setUDMBag, h1, h2, h3, h4]
    · intro j hj
      simp [hj]

/-- C4 witness: the concrete leader state with the service running
publishes immediately without deferring; the FQDN is
app.namespace.svc.cluster.local. -/
theorem c4_witness :
    (on_fiveg_udm_relation_joined csConverged 7).deferred = false ∧
    ∃ d, (on_fiveg_udm_relation_joined csConverged 7).out = Except.ok d ∧
      d 7 "udm_fqdn" = some "oai-5g-udm.whatever.svc.cluster.local" := by
  have h := (c4_relation_joined csConverged 7).2.2 rfl (by decide) (by decide)
  obtain ⟨hd, d, hout, _h1, _h2, _h3, h4, _h5, _h6⟩ := h
  exact ⟨hd, d, hout, by rw [h4]; rfl⟩
